import Mathlib

/-
Shallow embedding of src/factory-method/index.ts.

The program is two independent example modules:
  - a Factory Method module (notifications: Email, SMS, Push), and
  - an Abstract Factory module (reports: Sales/HR variants of PDF, Excel, HTML).

The only observable effect of any operation is console output, so every
operation is embedded as a pure function returning the list of lines it
prints, in order.  Classes with no state become enumeration types whose
constructors are the concrete subclasses; virtual dispatch becomes case
analysis on the constructor.
-/

namespace FactoryMethod

/-- The INotification interface: its three implementing classes
EmailNotification, SMSNotification, PushNotification are stateless, so
the interface is embedded as the closed set of concrete variants. -/
inductive INotification where
  | email
  | sms
  | push
  deriving DecidableEq, Fintype

/-- The sendNotification method of each concrete notification class:
each prints exactly one fixed line. -/
def INotification.sendNotification : INotification → List String
  | .email => ["Email notification sent"]
  | .sms => ["SMS notification sent"]
  | .push => ["Push notification sent"]

/-- The abstract NotificationFactory class with its three stateless
concrete subclasses. -/
inductive NotificationFactory where
  | emailNotificationFactory
  | smsNotificationFactory
  | pushNotificationFactory
  deriving DecidableEq, Fintype

/-- The abstract createNotification method as overridden by each
concrete factory subclass. -/
def NotificationFactory.createNotification : NotificationFactory → INotification
  | .emailNotificationFactory => .email
  | .smsNotificationFactory => .sms
  | .pushNotificationFactory => .push

/-- The concrete template method NotificationFactory.sendNotification:
creates the notification, sends it, then logs the fixed line
"Notification registered". -/
def NotificationFactory.sendNotification (f : NotificationFactory) : List String :=
  (f.createNotification).sendNotification ++ ["Notification registered"]

/-- The client function someClientCode of the factory-method module: it
just dispatches on the given factory. -/
def someClientCode (factory : NotificationFactory) : List String :=
  factory.sendNotification

/-- The usage section of the factory-method module: client code invoked
with each of the three factories in turn. -/
def usageTrace : List String :=
  someClientCode .emailNotificationFactory ++
  someClientCode .smsNotificationFactory ++
  someClientCode .pushNotificationFactory

end FactoryMethod

namespace AbstractFactory

/-- The department axis of the abstract-factory module: Sales and HR. -/
inductive Group where
  | sales
  | hr
  deriving DecidableEq, Fintype

/-- The textual tag with which a group marks its output lines. -/
def Group.tag : Group → String
  | .sales => "Sales"
  | .hr => "HR"

/-- The other group on the department axis. -/
def Group.other : Group → Group
  | .sales => .hr
  | .hr => .sales

/-- A line is tagged with a group when it starts with that group tag
followed by a space, checked on the underlying character lists. -/
def taggedWith (g : Group) (line : String) : Bool :=
  line.data.take (g.tag ++ " ").data.length == (g.tag ++ " ").data

/-- The abstract PDFReport class with its two concrete subclasses
SalesPDFReport and HRPDFReport. -/
inductive PDFReport where
  | salesPDFReport
  | hrPDFReport
  deriving DecidableEq, Fintype

/-- The generate method of each concrete PDF report class. -/
def PDFReport.generate : PDFReport → List String
  | .salesPDFReport => ["Sales PDF report generated"]
  | .hrPDFReport => ["HR PDF report generated"]

/-- The group a concrete PDF report variant belongs to. -/
def PDFReport.group : PDFReport → Group
  | .salesPDFReport => .sales
  | .hrPDFReport => .hr

/-- The abstract ExcelReport class with its two concrete subclasses
SalesExcelReport and HRExcelReport. -/
inductive ExcelReport where
  | salesExcelReport
  | hrExcelReport
  deriving DecidableEq, Fintype

/-- The generate method of each concrete Excel report class. -/
def ExcelReport.generate : ExcelReport → List String
  | .salesExcelReport => ["Sales Excel report generated"]
  | .hrExcelReport => ["HR Excel report generated"]

/-- The group a concrete Excel report variant belongs to. -/
def ExcelReport.group : ExcelReport → Group
  | .salesExcelReport => .sales
  | .hrExcelReport => .hr

/-- The abstract HTMLReport class with its two concrete subclasses
SalesHTMLReport and HRHTMLReport. -/
inductive HTMLReport where
  | salesHTMLReport
  | hrHTMLReport
  deriving DecidableEq, Fintype

/-- The generate method of each concrete HTML report class. -/
def HTMLReport.generate : HTMLReport → List String
  | .salesHTMLReport => ["Sales HTML report generated"]
  | .hrHTMLReport => ["HR HTML report generated"]

/-- The group a concrete HTML report variant belongs to. -/
def HTMLReport.group : HTMLReport → Group
  | .salesHTMLReport => .sales
  | .hrHTMLReport => .hr

/-- The abstract AbstractReportFactory class with its two stateless
concrete subclasses SalesReportFactory and HRReportFactory. -/
inductive AbstractReportFactory where
  | salesReportFactory
  | hrReportFactory
  deriving DecidableEq, Fintype

/-- The group identity of a concrete report factory. -/
def AbstractReportFactory.group : AbstractReportFactory → Group
  | .salesReportFactory => .sales
  | .hrReportFactory => .hr

/-- The createPDFReport method as overridden by each concrete factory. -/
def AbstractReportFactory.createPDFReport : AbstractReportFactory → PDFReport
  | .salesReportFactory => .salesPDFReport
  | .hrReportFactory => .hrPDFReport

/-- The createExcelReport method as overridden by each concrete factory. -/
def AbstractReportFactory.createExcelReport : AbstractReportFactory → ExcelReport
  | .salesReportFactory => .salesExcelReport
  | .hrReportFactory => .hrExcelReport

/-- The createHTMLReport method as overridden by each concrete factory. -/
def AbstractReportFactory.createHTMLReport : AbstractReportFactory → HTMLReport
  | .salesReportFactory => .salesHTMLReport
  | .hrReportFactory => .hrHTMLReport

/-- The client function someClientCode of the abstract-factory module:
create a PDF report and generate it, then an Excel report, then an HTML
report, in that fixed order. -/
def someClientCode (factory : AbstractReportFactory) : List String :=
  (factory.createPDFReport).generate ++
  (factory.createExcelReport).generate ++
  (factory.createHTMLReport).generate

/-- The usage section of the abstract-factory module: client code invoked
with the Sales factory, then the HR factory. -/
def usageTrace : List String :=
  someClientCode .salesReportFactory ++ someClientCode .hrReportFactory

/-- One of the three product families of the abstract-factory module,
used to talk about reorderings of the three create-then-generate steps. -/
inductive ReportFamily where
  | pdf
  | excel
  | html
  deriving DecidableEq, Fintype

/-- One create-then-generate step of the client code, selected by family. -/
def createAndGenerate (f : AbstractReportFactory) : ReportFamily → List String
  | .pdf => (f.createPDFReport).generate
  | .excel => (f.createExcelReport).generate
  | .html => (f.createHTMLReport).generate

/-- The trace obtained by performing the create-then-generate steps in
the given order of families. -/
def traceInOrder (f : AbstractReportFactory) (ord : List ReportFamily) : List String :=
  ord.flatMap (createAndGenerate f)

/-- The six possible orders of the three create-then-generate steps. -/
def allOrders : List (List ReportFamily) :=
  [[.pdf, .excel, .html], [.pdf, .html, .excel],
   [.excel, .pdf, .html], [.excel, .html, .pdf],
   [.html, .pdf, .excel], [.html, .excel, .pdf]]

end AbstractFactory

/-- The full demonstration program: the factory-method usage section runs
first, then the abstract-factory usage section. -/
def programTrace : List String :=
  FactoryMethod.usageTrace ++ AbstractFactory.usageTrace

/-- The printed lines of the nine concrete product variants, in source
order: the three notifications, then the Sales and HR variants of PDF,
Excel and HTML reports. -/
def productTraces : List (List String) :=
  [FactoryMethod.INotification.email.sendNotification,
   FactoryMethod.INotification.sms.sendNotification,
   FactoryMethod.INotification.push.sendNotification,
   AbstractFactory.PDFReport.salesPDFReport.generate,
   AbstractFactory.PDFReport.hrPDFReport.generate,
   AbstractFactory.ExcelReport.salesExcelReport.generate,
   AbstractFactory.ExcelReport.hrExcelReport.generate,
   AbstractFactory.HTMLReport.salesHTMLReport.generate,
   AbstractFactory.HTMLReport.hrHTMLReport.generate]

/-- Repeated invocation of createNotification on the same factory,
collecting the result of each call. -/
def FactoryMethod.iterateCreate (f : FactoryMethod.NotificationFactory) :
    Nat → List FactoryMethod.INotification
  | 0 => []
  | n + 1 => f.createNotification :: FactoryMethod.iterateCreate f n

/-- Repeated invocation of sendNotification on the same factory,
collecting the output of each call. -/
def FactoryMethod.iterateDispatch (f : FactoryMethod.NotificationFactory) :
    Nat → List (List String)
  | 0 => []
  | n + 1 => f.sendNotification :: FactoryMethod.iterateDispatch f n

/-- Repeated invocation of one create-then-generate step on the same
report factory, collecting the output of each call. -/
def AbstractFactory.iterateStep (f : AbstractFactory.AbstractReportFactory)
    (fam : AbstractFactory.ReportFamily) : Nat → List (List String)
  | 0 => []
  | n + 1 => AbstractFactory.createAndGenerate f fam :: AbstractFactory.iterateStep f fam n

open FactoryMethod AbstractFactory

/-- C1: for every concrete report factory, the three creation operations
all return products carrying the factory group, and invoking all three
with generate on each result emits exactly three lines, each tagged with
the factory group and none tagged with the other group. -/
theorem c1_family_consistency :
    ∀ f : AbstractReportFactory,
      (f.createPDFReport).group = f.group ∧
      (f.createExcelReport).group = f.group ∧
      (f.createHTMLReport).group = f.group ∧
      (AbstractFactory.someClientCode f).length = 3 ∧
      (AbstractFactory.someClientCode f).all (taggedWith f.group) ∧
      (AbstractFactory.someClientCode f).all (fun l => !(taggedWith f.group.other l)) := by
  decide

/-- C2: for every simple-family factory, dispatch emits exactly two lines
in order: the single announce line of the created product, then the fixed
confirmation line. -/
theorem c2_dispatch_two_effects :
    ∀ f : NotificationFactory,
      ∃ a : String,
        (f.createNotification).sendNotification = [a] ∧
        f.sendNotification = [a, "Notification registered"] := by
  intro f
  cases f <;> exact ⟨_, rfl, rfl⟩

/-- C3: the fixed demonstration program prints twelve lines: six from the
simple module (one announce plus one confirmation per dispatch, in the
Email, SMS, Push order) then six from the abstract module (Sales then
HR); being a total value, it completes unconditionally. -/
theorem c3_program_trace :
    programTrace =
      ["Email notification sent", "Notification registered",
       "SMS notification sent", "Notification registered",
       "Push notification sent", "Notification registered",
       "Sales PDF report generated", "Sales Excel report generated",
       "Sales HTML report generated", "HR PDF report generated",
       "HR Excel report generated", "HR HTML report generated"] ∧
    FactoryMethod.usageTrace.length = 6 ∧
    AbstractFactory.usageTrace.length = 6 ∧
    programTrace.length = 12 := by
  decide

/-- C4: round trip: each concrete creator returns the product variant
implied by its own identity: the Email factory an Email notification,
the SMS factory an SMS notification, the Push factory a Push
notification, and the Sales and HR factories the products of their own
group in each of the three families. -/
theorem c4_round_trip :
    NotificationFactory.emailNotificationFactory.createNotification = .email ∧
    NotificationFactory.smsNotificationFactory.createNotification = .sms ∧
    NotificationFactory.pushNotificationFactory.createNotification = .push ∧
    AbstractReportFactory.salesReportFactory.createPDFReport = .salesPDFReport ∧
    AbstractReportFactory.salesReportFactory.createExcelReport = .salesExcelReport ∧
    AbstractReportFactory.salesReportFactory.createHTMLReport = .salesHTMLReport ∧
    AbstractReportFactory.hrReportFactory.createPDFReport = .hrPDFReport ∧
    AbstractReportFactory.hrReportFactory.createExcelReport = .hrExcelReport ∧
    AbstractReportFactory.hrReportFactory.createHTMLReport = .hrHTMLReport := by
  decide

/-- C5: dispatching on the Email factory prints exactly the line
"Email notification sent" followed by the line
"Notification registered". -/
theorem c5_email_dispatch :
    NotificationFactory.emailNotificationFactory.sendNotification =
      ["Email notification sent", "Notification registered"] := by
  decide

/-- C6: for every report factory, performing the three create-then-generate
steps in any of the six possible orders yields a permutation of (hence the
same multiset as) the fixed PDF, Excel, HTML order of the client code; in
particular the Sales factory yields exactly the three Sales lines with no
HR-tagged line present. -/
theorem c6_order_insensitive :
    ∀ f : AbstractReportFactory, ∀ ord ∈ allOrders,
      (traceInOrder f ord).Perm (AbstractFactory.someClientCode f) ∧
      (traceInOrder AbstractReportFactory.salesReportFactory ord).Perm
        ["Sales PDF report generated", "Sales Excel report generated",
         "Sales HTML report generated"] ∧
      (traceInOrder AbstractReportFactory.salesReportFactory ord).all
        (fun l => !(taggedWith Group.hr l)) := by
  decide

/-- C6 witness: the theorem applied to the HR factory and one concrete
non-default order. -/
theorem c6_order_insensitive_witness :
    (traceInOrder AbstractReportFactory.hrReportFactory
        [ReportFamily.html, ReportFamily.pdf, ReportFamily.excel]).Perm
      (AbstractFactory.someClientCode AbstractReportFactory.hrReportFactory) ∧
    (traceInOrder AbstractReportFactory.salesReportFactory
        [ReportFamily.html, ReportFamily.pdf, ReportFamily.excel]).Perm
      ["Sales PDF report generated", "Sales Excel report generated",
       "Sales HTML report generated"] ∧
    (traceInOrder AbstractReportFactory.salesReportFactory
        [ReportFamily.html, ReportFamily.pdf, ReportFamily.excel]).all
      (fun l => !(taggedWith Group.hr l)) :=
  c6_order_insensitive AbstractReportFactory.hrReportFactory
    [ReportFamily.html, ReportFamily.pdf, ReportFamily.excel] (by decide)

/-- Helper: repeated createNotification calls give a replicated list. -/
lemma iterateCreate_eq_replicate (f : NotificationFactory) (n : Nat) :
    FactoryMethod.iterateCreate f n = List.replicate n f.createNotification := by
  induction n with
  | zero => rfl
  | succ n ih => simp [FactoryMethod.iterateCreate, List.replicate_succ, ih]

/-- Helper: repeated sendNotification calls give a replicated list. -/
lemma iterateDispatch_eq_replicate (f : NotificationFactory) (n : Nat) :
    FactoryMethod.iterateDispatch f n = List.replicate n f.sendNotification := by
  induction n with
  | zero => rfl
  | succ n ih => simp [FactoryMethod.iterateDispatch, List.replicate_succ, ih]

/-- Helper: repeated create-then-generate calls give a replicated list. -/
lemma iterateStep_eq_replicate (f : AbstractReportFactory) (fam : ReportFamily) (n : Nat) :
    AbstractFactory.iterateStep f fam n = List.replicate n (createAndGenerate f fam) := by
  induction n with
  | zero => rfl
  | succ n ih => simp [AbstractFactory.iterateStep, List.replicate_succ, ih]

/-- C7: invoking the same creation operation any number of times yields
identical results each call: for the simple module, n repeated calls of
createNotification, and of the full dispatch, give n copies of one fixed
value, and likewise n repeated create-then-generate steps of any family
on either report factory; no state is carried between calls. -/
theorem c7_idempotent_creation :
    ∀ (nf : NotificationFactory) (rf : AbstractReportFactory)
      (fam : ReportFamily) (n : Nat),
      FactoryMethod.iterateCreate nf n = List.replicate n nf.createNotification ∧
      FactoryMethod.iterateDispatch nf n = List.replicate n nf.sendNotification ∧
      AbstractFactory.iterateStep rf fam n = List.replicate n (createAndGenerate rf fam) :=
  fun nf rf fam n =>
    ⟨iterateCreate_eq_replicate nf n, iterateDispatch_eq_replicate nf n,
     iterateStep_eq_replicate rf fam n⟩

/-- C8: totality: every operation of both modules is a total function of
its finite input and produces its fixed finite output on every concrete
variant, with no error outcome: every announce or generate call prints
exactly one line, every dispatch exactly two, and every abstract-factory
client run exactly three. -/
theorem c8_totality :
    ∀ (nf : NotificationFactory) (rf : AbstractReportFactory),
      ((nf.createNotification).sendNotification).length = 1 ∧
      (nf.sendNotification).length = 2 ∧
      ((rf.createPDFReport).generate).length = 1 ∧
      ((rf.createExcelReport).generate).length = 1 ∧
      ((rf.createHTMLReport).generate).length = 1 ∧
      (AbstractFactory.someClientCode rf).length = 3 := by
  decide

/-- C9: the confirmation line of dispatch comes from the shared template
method, so it is the single string "Notification registered", the last of
the two printed lines, for all three concrete factories alike. -/
theorem c9_shared_confirmation :
    ∀ f : NotificationFactory,
      (f.sendNotification).getLast? = some "Notification registered" := by
  decide

/-- C10: each of the nine concrete product variants prints exactly one
line, and the nine traces are pairwise distinct, so an observed output
line uniquely identifies the variant. -/
theorem c10_distinct_product_lines :
    productTraces.length = 9 ∧
    (productTraces.all fun t => t.length == 1) ∧
    productTraces.Nodup := by
  decide
